import Mathlib

/-!
Shallow embedding of the `ont-stats` repository core (src/ont_stats/client.py,
parser.py, models.py) and proofs about it.

Strings are modelled through their character lists (`String.data`), Python
byte strings as `List Nat` (each element a byte value), Python `re` patterns
by hand-rolled executable matchers whose equivalence to the concrete patterns
used in the source is argued pointwise in the definitions' comments, and
Python dicts (`dict[str, str]`) as association lists in insertion order.
HTTP transport is external to the repository; the fetch operations are
modelled as functions of the logged-in flag and the body the transport
returned.
-/

namespace OntStats

/-! ## Character classes used by the regular expressions in the source -/

/-- Python `\s` on the ASCII range (space, tab, newline, carriage return,
vertical tab, form feed), as used by `client.py`'s `SID_PATTERN` and the
`JS_VAR_PATTERNS` of `parser.py`. -/
def isSpaceCh (c : Char) : Bool :=
  c == ' ' || c == '\t' || c == '\n' || c == '\r' || c == '\x0b' || c == '\x0c'

/-- Character class `[a-fA-F0-9]` from `SID_PATTERN` in client.py. -/
def isHexCh (c : Char) : Bool :=
  ('0' ≤ c && c ≤ '9') || ('a' ≤ c && c ≤ 'f') || ('A' ≤ c && c ≤ 'F')

/-- Character class `['\"]` from `SID_PATTERN` in client.py: a single or a
double quote. -/
def isQuoteCh (c : Char) : Bool :=
  c == '"' || c.toNat == 39

/-! ## Substring search (Python `in` on str) -/

/-- Boolean test that `pre` is a prefix of `l`. -/
def leadsWith : List Char → List Char → Bool
  | [], _ => true
  | _ :: _, [] => false
  | a :: as, b :: bs => a == b && leadsWith as bs

/-- Boolean substring test on character lists; `hasSub needle hay` is Python
`needle in hay`. -/
def hasSub (needle : List Char) : List Char → Bool
  | [] => needle.isEmpty
  | c :: rest => leadsWith needle (c :: rest) || hasSub needle rest

/-- Python `needle in hay` on strings. -/
def strContains (hay needle : String) : Bool :=
  hasSub needle.data hay.data

/-! ## Executable matchers for the two regex shapes of the source

client.py line 24: `SID_PATTERN = re.compile(r"var\s+sid\s*=\s*['\"]([a-fA-F0-9]+)['\"]")`.
parser.py lines 12-16: `re.compile(r'var\s+NAME\s*=\s*"([^"]*)"')` for each of the
three variable names.

Both shapes start with `var\s+NAME\s*=\s*`.  Because the greedy `\s+`/`\s*`
runs are followed by characters that are never whitespace (a letter of the
name, `=`, a quote), and the greedy `[a-fA-F0-9]+`/`[^"]*` runs are followed
by a quote which is never in the class, Python's backtracking search is
equivalent to taking maximal runs, which is what the matchers below do; the
position scan of `re.search` (leftmost match) is `searchWith`. -/

/-- Strip the literal character list `lit` from the front of `cs`. -/
def stripLit : List Char → List Char → Option (List Char)
  | [], cs => some cs
  | _ :: _, [] => none
  | n :: ns, c :: cs => if c == n then stripLit ns cs else none

/-- Match `var\s+NAME\s*=\s*` at the head of `cs`, returning the rest. -/
def matchAssignHead (name : List Char) (cs : List Char) : Option (List Char) :=
  match cs with
  | a :: b :: r :: c :: rest =>
    if a == 'v' && b == 'a' && r == 'r' && isSpaceCh c then
      match stripLit name (rest.dropWhile isSpaceCh) with
      | some rest2 =>
        match rest2.dropWhile isSpaceCh with
        | c2 :: rest3 => if c2 == '=' then some (rest3.dropWhile isSpaceCh) else none
        | [] => none
      | none => none
    else none
  | _ => none

/-- Match the full `SID_PATTERN` at the head of `cs`, returning the capture
group `([a-fA-F0-9]+)`. -/
def matchSidAt (cs : List Char) : Option (List Char) :=
  match matchAssignHead ['s', 'i', 'd'] cs with
  | some rest =>
    match rest with
    | q :: rest2 =>
      if isQuoteCh q then
        if (rest2.takeWhile isHexCh).isEmpty then none
        else
          match rest2.dropWhile isHexCh with
          | q2 :: _ => if isQuoteCh q2 then some (rest2.takeWhile isHexCh) else none
          | [] => none
      else none
    | [] => none
  | none => none

/-- Match one `JS_VAR_PATTERNS` entry at the head of `cs`, returning the
capture group `([^"]*)`. -/
def matchJsAt (name : List Char) (cs : List Char) : Option (List Char) :=
  match matchAssignHead name cs with
  | some rest =>
    match rest with
    | q :: rest2 =>
      if q == '"' then
        match rest2.dropWhile (fun c => !(c == '"')) with
        | q2 :: _ => if q2 == '"' then some (rest2.takeWhile (fun c => !(c == '"'))) else none
        | [] => none
      else none
    | [] => none
  | none => none

/-- Leftmost-match position scan, the embedding of `re.search`. -/
def searchWith (m : List Char → Option (List Char)) : List Char → Option (List Char)
  | [] => none
  | c :: cs =>
    match m (c :: cs) with
    | some r => some r
    | none => searchWith m cs

/-- The `SID_PATTERN.search` of client.py. -/
def sidSearch (cs : List Char) : Option (List Char) :=
  searchWith matchSidAt cs

/-- One `pattern.search` of the `JS_VAR_PATTERNS` loop of parser.py, giving
the first captured value for `name`. -/
def jsVarSearch (name : String) (html : String) : Option String :=
  (searchWith (matchJsAt name.data) html.data).map (fun l => ⟨l⟩)

/-! ## Data model (models.py) -/

/-- Timestamp model for Python `datetime` as used by this repository:
calendar and clock components plus microseconds (always timezone-naive
here, since the source only calls `datetime.now()`). -/
structure DateTime where
  year : Nat
  month : Nat
  day : Nat
  hour : Nat
  minute : Nat
  second : Nat
  microsecond : Nat
deriving DecidableEq, Repr

/-- The `ONTInfo` dataclass of models.py.  The `extra_fields` dict is an
association list in insertion order. -/
structure ONTInfo where
  ont_id : String := ""
  vendor_id : String := ""
  serial_number : String := ""
  gpon_serial_number : String := ""
  mac_address : String := ""
  hardware_version : String := ""
  active_software_version : String := ""
  standby_software_version : String := ""
  country_code : String := ""
  connection_status : String := ""
  optical_power_dbm : String := ""
  fetched_at : DateTime
  extra_fields : List (String × String) := []
deriving DecidableEq, Repr

/-! ## Association-list operations for Python dicts -/

/-- Python `d[k]` / `k in d` combined: first value stored under `k`. -/
def dget (d : List (String × String)) (k : String) : Option String :=
  match d with
  | [] => none
  | (k2, v) :: rest => if k2 == k then some v else dget rest k

/-- Python `d[k] = v`: replace the value in place if the key exists,
otherwise append (insertion order preserved). -/
def dset (d : List (String × String)) (k v : String) : List (String × String) :=
  match d with
  | [] => [(k, v)]
  | (k2, v2) :: rest => if k2 == k then (k2, v) :: rest else (k2, v2) :: dset rest k v

/-! ## parser.py -/

/-- The keys of `JS_VAR_PATTERNS` in iteration (insertion) order. -/
def jsVarNames : List String := ["gponPasswd", "gponStatus", "countryCode"]

/-- The function `parse_js_vars` of parser.py: for each known variable name,
the first regex match, collected in iteration order. -/
def parse_js_vars (html : String) : List (String × String) :=
  jsVarNames.filterMap (fun name => (jsVarSearch name html).map (fun v => (name, v)))

/-- The dictionary `LABEL_FIELD_MAP` of parser.py. -/
def LABEL_FIELD_MAP : List (String × String) :=
  [("Aktuelle ONT ID", "ont_id"),
   ("Händler ID", "vendor_id"),
   ("Hardwareversion", "hardware_version"),
   ("Aktive Softwareversion", "active_software_version"),
   ("Standby Softwareversion", "standby_software_version"),
   ("Landesvorwahl", "country_code"),
   ("Seriennummer", "serial_number"),
   ("MAC-Adresse", "mac_address"),
   ("Optische Leistung (dBm)", "optical_power_dbm"),
   ("GPON-Seriennummer", "gpon_serial_number")]

/-- The `setattr(info, field_name, value)` of parser.py line 93, restricted to
the field names occurring in `LABEL_FIELD_MAP`. -/
def setField (info : ONTInfo) (fieldName : String) (v : String) : ONTInfo :=
  if fieldName == "ont_id" then { info with ont_id := v }
  else if fieldName == "vendor_id" then { info with vendor_id := v }
  else if fieldName == "hardware_version" then { info with hardware_version := v }
  else if fieldName == "active_software_version" then { info with active_software_version := v }
  else if fieldName == "standby_software_version" then { info with standby_software_version := v }
  else if fieldName == "country_code" then { info with country_code := v }
  else if fieldName == "serial_number" then { info with serial_number := v }
  else if fieldName == "mac_address" then { info with mac_address := v }
  else if fieldName == "optical_power_dbm" then { info with optical_power_dbm := v }
  else if fieldName == "gpon_serial_number" then { info with gpon_serial_number := v }
  else info

/-- Python `str.lower()` on the ASCII range (the labels in scope are Latin-1;
only A-Z are affected by lowercasing among characters this code meets). -/
def pyLower (s : String) : String :=
  ⟨s.data.map Char.toLower⟩

/-- Key normalisation of parser.py line 96:
`label_text.lower().replace(" ", "_").replace("-", "_")`. -/
def normalizeKey (s : String) : String :=
  ⟨(pyLower s).data.map (fun c => if c == ' ' || c == '-' then '_' else c)⟩

/-- One structural `form-group` of the install-info page, abstracting what
BeautifulSoup hands the loop of parser.py lines 75-97: the stripped text of
the group's label element if one exists, and the `value` attribute of its
readonly input element if one exists (`""` when the attribute is absent,
per the `.get("value", "")` default). -/
structure FormGroup where
  labelText : Option String
  inputValue : Option String
deriving DecidableEq, Repr

/-- The body of the per-group loop of parse_install_info (parser.py lines
75-97). Group without a label or without a readonly input: skipped. Known
label with non-empty value: typed field set. Unknown label, label and value
both non-empty: stored in `extra_fields` under the normalised key. -/
def processGroup (info : ONTInfo) (g : FormGroup) : ONTInfo :=
  match g.labelText with
  | none => info
  | some labelText =>
    match g.inputValue with
    | none => info
    | some v =>
      match dget LABEL_FIELD_MAP labelText with
      | some fieldName =>
        if !(v == "") then setField info fieldName v else info
      | none =>
        if !(labelText == "") && !(v == "") then
          { info with extra_fields := dset info.extra_fields (normalizeKey labelText) v }
        else info

/-- The function `parse_install_info` of parser.py.  The BeautifulSoup
structural scan (`soup.find_all("div", class_="form-group")` and the label /
readonly-input lookups) is external library behaviour and is abstracted as
the `groups` argument; `datetime.now()` is the `now` argument. -/
def parse_install_info (html : String) (groups : List FormGroup) (now : DateTime) : ONTInfo :=
  let info0 : ONTInfo := { fetched_at := now }
  let info1 :=
    match dget (parse_js_vars html) "gponPasswd" with
    | some v => { info0 with ont_id := v }
    | none => info0
  groups.foldl processGroup info1

/-- The function `parse_identifier` of parser.py. -/
def parse_identifier (html : String) : List (String × String) :=
  let js := parse_js_vars html
  (match dget js "gponStatus" with
   | some v => [("connection_status", v)]
   | none => []) ++
  (match dget js "countryCode" with
   | some v => [("country_code", v)]
   | none => []) ++
  (match dget js "gponPasswd" with
   | some v => [("ont_id", v)]
   | none => [])

/-- The function `merge_info` of parser.py.  `connection_status` is taken
from the secondary data whenever the key is present; `country_code` and
`ont_id` only when the current field is empty (Python string falsiness). -/
def merge_info (info : ONTInfo) (identifier_data : List (String × String)) : ONTInfo :=
  let i1 :=
    match dget identifier_data "connection_status" with
    | some v => { info with connection_status := v }
    | none => info
  let i2 :=
    if i1.country_code == "" then
      match dget identifier_data "country_code" with
      | some v => { i1 with country_code := v }
      | none => i1
    else i1
  if i2.ont_id == "" then
    match dget identifier_data "ont_id" with
    | some v => { i2 with ont_id := v }
    | none => i2
  else i2

/-! ## client.py -/

/-- Error taxonomy of the client, one constructor per distinct raise site:
`AuthenticationError` at lines 68 (token), 122 (credentials), 125 (auth
failure), 149 (session expiry) and the `RuntimeError` at lines 141/165. -/
inductive AuthError where
  | tokenNotFound
  | invalidCredentials
  | authFailed
  | notAuthenticated
  | sessionExpired
deriving DecidableEq, Repr

/-- UTF-8 encoding of one character (Python `str.encode()` is UTF-8), as a
list of byte values. -/
def utf8Char (c : Char) : List Nat :=
  let n := c.toNat
  if n < 0x80 then [n]
  else if n < 0x800 then [0xc0 + n / 64, 0x80 + n % 64]
  else if n < 0x10000 then [0xe0 + n / 4096, 0x80 + n / 64 % 64, 0x80 + n % 64]
  else [0xf0 + n / 0x40000, 0x80 + n / 4096 % 64, 0x80 + n / 64 % 64, 0x80 + n % 64]

/-- Python `str.encode()`: UTF-8 bytes of a string. -/
def utf8Encode (s : String) : List Nat :=
  s.data.flatMap utf8Char

/-! ### MD5 (RFC 1321), the meaning of `hashlib.md5(...).hexdigest()`

`hashlib` is an external library; this is its documented algorithm,
implemented executably over byte lists with `Nat` arithmetic mod `2 ^ 32`. -/

/-- The sixty-four MD5 sine-table constants `T[i] = floor(abs(sin(i+1)) * 2^32)`. -/
def md5K : List Nat :=
  [0xd76aa478, 0xe8c7b756, 0x242070db, 0xc1bdceee, 0xf57c0faf, 0x4787c62a, 0xa8304613, 0xfd469501,
   0x698098d8, 0x8b44f7af, 0xffff5bb1, 0x895cd7be, 0x6b901122, 0xfd987193, 0xa679438e, 0x49b40821,
   0xf61e2562, 0xc040b340, 0x265e5a51, 0xe9b6c7aa, 0xd62f105d, 0x02441453, 0xd8a1e681, 0xe7d3fbc8,
   0x21e1cde6, 0xc33707d6, 0xf4d50d87, 0x455a14ed, 0xa9e3e905, 0xfcefa3f8, 0x676f02d9, 0x8d2a4c8a,
   0xfffa3942, 0x8771f681, 0x6d9d6122, 0xfde5380c, 0xa4beea44, 0x4bdecfa9, 0xf6bb4b60, 0xbebfbc70,
   0x289b7ec6, 0xeaa127fa, 0xd4ef3085, 0x04881d05, 0xd9d4d039, 0xe6db99e5, 0x1fa27cf8, 0xc4ac5665,
   0xf4292244, 0x432aff97, 0xab9423a7, 0xfc93a039, 0x655b59c3, 0x8f0ccc92, 0xffeff47d, 0x85845dd1,
   0x6fa87e4f, 0xfe2ce6e0, 0xa3014314, 0x4e0811a1, 0xf7537e82, 0xbd3af235, 0x2ad7d2bb, 0xeb86d391]

/-- The per-round left-rotation amounts of MD5. -/
def md5S : List Nat :=
  [7, 12, 17, 22, 7, 12, 17, 22, 7, 12, 17, 22, 7, 12, 17, 22,
   5, 9, 14, 20, 5, 9, 14, 20, 5, 9, 14, 20, 5, 9, 14, 20,
   4, 11, 16, 23, 4, 11, 16, 23, 4, 11, 16, 23, 4, 11, 16, 23,
   6, 10, 15, 21, 6, 10, 15, 21, 6, 10, 15, 21, 6, 10, 15, 21]

/-- Rotate a 32-bit word left by `s` bits. -/
def rotl32 (x s : Nat) : Nat :=
  (x % 2 ^ 32) * 2 ^ s % 2 ^ 32 + x % 2 ^ 32 / 2 ^ (32 - s)

/-- The MD5 round function (F, G, H, I selected by the round index). -/
def md5F (i b c d : Nat) : Nat :=
  if i < 16 then b &&& c ||| (b ^^^ 0xffffffff) &&& d
  else if i < 32 then d &&& b ||| (d ^^^ 0xffffffff) &&& c
  else if i < 48 then b ^^^ c ^^^ d
  else c ^^^ (b ||| (d ^^^ 0xffffffff))

/-- The MD5 message-word index for round `i`. -/
def md5G (i : Nat) : Nat :=
  if i < 16 then i
  else if i < 32 then (5 * i + 1) % 16
  else if i < 48 then (3 * i + 5) % 16
  else 7 * i % 16

/-- Assemble consecutive groups of four bytes into little-endian 32-bit words. -/
def toWordsLE : List Nat → List Nat
  | b0 :: b1 :: b2 :: b3 :: rest =>
    (b0 % 256 + 256 * (b1 % 256) + 65536 * (b2 % 256) + 16777216 * (b3 % 256)) :: toWordsLE rest
  | _ => []

/-- Little-endian byte decomposition of a 32-bit word. -/
def wordLE (w : Nat) : List Nat :=
  [w % 256, w / 256 % 256, w / 65536 % 256, w / 16777216 % 256]

/-- Little-endian byte decomposition of the 64-bit message bit length. -/
def lenBytes (n : Nat) : List Nat :=
  [n % 256, n / 2 ^ 8 % 256, n / 2 ^ 16 % 256, n / 2 ^ 24 % 256,
   n / 2 ^ 32 % 256, n / 2 ^ 40 % 256, n / 2 ^ 48 % 256, n / 2 ^ 56 % 256]

/-- MD5 padding: a `0x80` byte, zeros to 56 mod 64, then the bit length. -/
def md5Pad (msg : List Nat) : List Nat :=
  msg ++ 0x80 :: List.replicate ((64 + 55 - msg.length % 64) % 64) 0 ++ lenBytes (msg.length * 8)

/-- One MD5 compression step over the sixteen message words `M`. -/
def md5Step (M : List Nat) (st : Nat × Nat × Nat × Nat) (i : Nat) : Nat × Nat × Nat × Nat :=
  match st with
  | (a, b, c, d) =>
    let tmp := (a + md5F i b c d + md5K.getD i 0 + M.getD (md5G i) 0) % 2 ^ 32
    (d, (b + rotl32 tmp (md5S.getD i 0)) % 2 ^ 32, b, c)

/-- Process one 64-byte block. -/
def md5Block (st : Nat × Nat × Nat × Nat) (block : List Nat) : Nat × Nat × Nat × Nat :=
  match st with
  | (a0, b0, c0, d0) =>
    match (List.range 64).foldl (md5Step (toWordsLE block)) (a0, b0, c0, d0) with
    | (a, b, c, d) => ((a0 + a) % 2 ^ 32, (b0 + b) % 2 ^ 32, (c0 + c) % 2 ^ 32, (d0 + d) % 2 ^ 32)

/-- Split a byte list into 64-byte blocks (structural recursion with a
position counter; the padded message length is a multiple of 64). -/
def splitBlocksGo (count : Nat) (acc : List Nat) : List Nat → List (List Nat)
  | [] => if acc.isEmpty then [] else [acc.reverse]
  | b :: bs =>
    if count == 63 then (b :: acc).reverse :: splitBlocksGo 0 [] bs
    else splitBlocksGo (count + 1) (b :: acc) bs

/-- The sixteen MD5 digest bytes of a byte-list message. -/
def md5Bytes (msg : List Nat) : List Nat :=
  match (splitBlocksGo 0 [] (md5Pad msg)).foldl md5Block
      (0x67452301, 0xefcdab89, 0x98badcfe, 0x10325476) with
  | (a, b, c, d) => wordLE a ++ wordLE b ++ wordLE c ++ wordLE d

/-- Lowercase hexadecimal digit character for `n % 16`. -/
def hexDigitCh (n : Nat) : Char :=
  match n % 16 with
  | 0 => '0' | 1 => '1' | 2 => '2' | 3 => '3' | 4 => '4' | 5 => '5' | 6 => '6' | 7 => '7'
  | 8 => '8' | 9 => '9' | 10 => 'a' | 11 => 'b' | 12 => 'c' | 13 => 'd' | 14 => 'e' | _ => 'f'

/-- Python `hashlib.md5(msg).hexdigest()`: the digest bytes rendered as
lowercase hexadecimal. -/
def md5_hexdigest (msg : List Nat) : String :=
  ⟨(md5Bytes msg).flatMap (fun b => [hexDigitCh (b / 16), hexDigitCh (b % 16)])⟩

/-- The method `ONTClient._compute_password_hash` of client.py:
`hashlib.md5(f"{password}:{sid}".encode()).hexdigest()`. -/
def compute_password_hash (password sid : String) : String :=
  md5_hexdigest (utf8Encode (password ++ ":" ++ sid))

/-- The method `ONTClient._get_session_id` of client.py, as a function of the
login-page text the transport returned: the first `SID_PATTERN` match, or
the token-not-found `AuthenticationError`. -/
def get_session_id (text : String) : Except AuthError String :=
  match sidSearch text.data with
  | some hx => .ok ⟨hx⟩
  | none => .error .tokenNotFound

/-- Classification of the login POST response body by `ONTClient.login`
(client.py lines 119-127); `.ok true` is the new `_logged_in` flag. -/
def login_classify (body : String) : Except AuthError Bool :=
  if strContains body "Falscher Benutzer oder Passwort" then .error .invalidCredentials
  else if strContains body "Fehler bei Authentifizierung" then .error .authFailed
  else .ok true

/-- The method `ONTClient.fetch_install_info`, as a function of the
`_logged_in` flag and the body the transport returned. -/
def fetch_install_info (loggedIn : Bool) (body : String) : Except AuthError String :=
  if !loggedIn then .error .notAuthenticated
  else if strContains body "install_login.cgi" && strContains body "window.parent.location" then
    .error .sessionExpired
  else .ok body

/-- The method `ONTClient.fetch_identifier`, as a function of the
`_logged_in` flag and the body the transport returned.  Unlike
`fetch_install_info` it performs no login-redirect check. -/
def fetch_identifier (loggedIn : Bool) (body : String) : Except AuthError String :=
  if !loggedIn then .error .notAuthenticated
  else .ok body

/-! ## models.py serialization -/

/-- Decimal digit character for `n` (used with `n < 10`). -/
def digitCh (n : Nat) : Char :=
  match n with
  | 0 => '0' | 1 => '1' | 2 => '2' | 3 => '3' | 4 => '4'
  | 5 => '5' | 6 => '6' | 7 => '7' | 8 => '8' | 9 => '9' | _ => '0'

/-- Numeric value of a decimal digit character. -/
def digitVal (c : Char) : Nat :=
  c.toNat - 48

/-- Zero-padded two-digit decimal rendering (Python `%02d` for `n < 100`). -/
def pad2 (n : Nat) : List Char :=
  [digitCh (n / 10), digitCh (n % 10)]

/-- Zero-padded four-digit decimal rendering (Python `%04d` for `n < 10000`). -/
def pad4 (n : Nat) : List Char :=
  [digitCh (n / 1000), digitCh (n / 100 % 10), digitCh (n / 10 % 10), digitCh (n % 10)]

/-- Zero-padded six-digit decimal rendering (Python `%06d` for `n < 1000000`). -/
def pad6 (n : Nat) : List Char :=
  [digitCh (n / 100000), digitCh (n / 10000 % 10), digitCh (n / 1000 % 10),
   digitCh (n / 100 % 10), digitCh (n / 10 % 10), digitCh (n % 10)]

/-- Python `datetime.isoformat()` for a timezone-naive value:
`YYYY-MM-DDTHH:MM:SS`, with `.ffffff` appended only when the microsecond
component is non-zero. -/
def DateTime.isoformat (dt : DateTime) : String :=
  ⟨pad4 dt.year ++ '-' :: (pad2 dt.month ++ '-' :: (pad2 dt.day ++ 'T' ::
    (pad2 dt.hour ++ ':' :: (pad2 dt.minute ++ ':' :: (pad2 dt.second ++
      (if dt.microsecond == 0 then [] else '.' :: pad6 dt.microsecond))))))⟩

/-- The field-keyed structure produced by `ONTInfo.to_dict` (models.py lines
35-55): the eleven string fields, the timestamp rendered by `isoformat`, and
the `extra_fields` entry which is present only when the dict is non-empty. -/
structure ONTDict where
  ont_id : String
  vendor_id : String
  serial_number : String
  gpon_serial_number : String
  mac_address : String
  hardware_version : String
  active_software_version : String
  standby_software_version : String
  country_code : String
  connection_status : String
  optical_power_dbm : String
  fetched_at : String
  extraFields : Option (List (String × String))
deriving DecidableEq, Repr

/-- The method `ONTInfo.to_dict` of models.py. -/
def ONTInfo.to_dict (info : ONTInfo) : ONTDict :=
  { ont_id := info.ont_id
    vendor_id := info.vendor_id
    serial_number := info.serial_number
    gpon_serial_number := info.gpon_serial_number
    mac_address := info.mac_address
    hardware_version := info.hardware_version
    active_software_version := info.active_software_version
    standby_software_version := info.standby_software_version
    country_code := info.country_code
    connection_status := info.connection_status
    optical_power_dbm := info.optical_power_dbm
    fetched_at := info.fetched_at.isoformat
    extraFields := if info.extra_fields.isEmpty then none else some info.extra_fields }

/-- Value of a decimal digit string read left to right. -/
def digitsVal (l : List Char) : Nat :=
  l.foldl (fun a c => a * 10 + digitVal c) 0

/-- Modelled from the spec: the repository ships no timestamp deserializer;
spec §8 requires the round trip "timestamp normalized to a fixed format", so
the fixed format emitted by `isoformat` is read back positionally
(`YYYY-MM-DDTHH:MM:SS` with the optional `.ffffff` tail). -/
def DateTime.fromIso (s : String) : DateTime :=
  match s.data with
  | y1 :: y2 :: y3 :: y4 :: _ :: m1 :: m2 :: _ :: d1 :: d2 :: _ :: h1 :: h2 :: _ ::
      i1 :: i2 :: _ :: s1 :: s2 :: rest =>
    { year := digitsVal [y1, y2, y3, y4]
      month := digitsVal [m1, m2]
      day := digitsVal [d1, d2]
      hour := digitsVal [h1, h2]
      minute := digitsVal [i1, i2]
      second := digitsVal [s1, s2]
      microsecond :=
        match rest with
        | _ :: us => digitsVal us
        | [] => 0 }
  | _ => ⟨0, 0, 0, 0, 0, 0, 0⟩

/-- Modelled from the spec: the repository has only the serializer
(`ONTInfo.to_dict`); spec §8 states the field-keyed structure deserializes
"back without loss of the known fields", so each known key is read back into
the record field of the same name, the timestamp through `DateTime.fromIso`,
and a missing `extra_fields` entry becomes the empty dict. -/
def from_dict (d : ONTDict) : ONTInfo :=
  { ont_id := d.ont_id
    vendor_id := d.vendor_id
    serial_number := d.serial_number
    gpon_serial_number := d.gpon_serial_number
    mac_address := d.mac_address
    hardware_version := d.hardware_version
    active_software_version := d.active_software_version
    standby_software_version := d.standby_software_version
    country_code := d.country_code
    connection_status := d.connection_status
    optical_power_dbm := d.optical_power_dbm
    fetched_at := DateTime.fromIso d.fetched_at
    extra_fields := d.extraFields.getD [] }

/-- Declarative reading of `SID_PATTERN`: the text contains, at some
position, `var`, one or more whitespace characters, `sid`, optional
whitespace, `=`, optional whitespace, a quote, one or more hex digits, and
a closing quote.  Stated independently of the executable matcher so that
the matcher can be proved sound and complete against it. -/
def SidAssign (cs : List Char) : Prop :=
  ∃ (pre w1 w2 w3 : List Char) (q1 : Char) (hx : List Char) (q2 : Char) (post : List Char),
    cs = pre ++ 'v' :: 'a' :: 'r' ::
      (w1 ++ 's' :: 'i' :: 'd' :: (w2 ++ '=' :: (w3 ++ q1 :: (hx ++ q2 :: post))))
    ∧ w1 ≠ [] ∧ w1.all isSpaceCh = true ∧ w2.all isSpaceCh = true ∧ w3.all isSpaceCh = true
    ∧ isQuoteCh q1 = true ∧ hx ≠ [] ∧ hx.all isHexCh = true ∧ isQuoteCh q2 = true

/-! ## Helper lemmas -/

/-- A maximal run: `takeWhile` over a prefix on which `p` holds everywhere,
followed by an element on which it fails, returns exactly that prefix. -/
theorem takeWhile_all_append {p : Char → Bool} :
    ∀ (l : List Char) (c : Char) (r : List Char), l.all p = true → p c = false →
      (l ++ c :: r).takeWhile p = l ∧ (l ++ c :: r).dropWhile p = c :: r := by
  intro l
  induction l with
  | nil =>
    intro c r _ hc
    simp [List.takeWhile, List.dropWhile, hc]
  | cons a as ih =>
    intro c r hall hc
    have ha : p a = true := by
      have := List.all_eq_true.mp hall a (by simp)
      simpa using this
    have hrest : as.all p = true := by
      apply List.all_eq_true.mpr
      intro x hx
      exact List.all_eq_true.mp hall x (by simp [hx])
    have ⟨ht, hd⟩ := ih c r hrest hc
    simp [List.takeWhile, List.dropWhile, ha, ht, hd]

/-- Strings are equal iff their character lists are. -/
theorem string_mk_data (s : String) : String.mk s.data = s := by
  cases s
  rfl

/-- Writing a non-empty value through `setField` leaves every string field
either non-empty or unchanged, and never touches the timestamp. -/
theorem setField_preserves (info : ONTInfo) (fn v : String) (hv : v ≠ "") :
    ((setField info fn v).ont_id ≠ "" ∨ (setField info fn v).ont_id = info.ont_id)
    ∧ ((setField info fn v).vendor_id ≠ "" ∨ (setField info fn v).vendor_id = info.vendor_id)
    ∧ ((setField info fn v).serial_number ≠ "" ∨ (setField info fn v).serial_number = info.serial_number)
    ∧ ((setField info fn v).gpon_serial_number ≠ "" ∨ (setField info fn v).gpon_serial_number = info.gpon_serial_number)
    ∧ ((setField info fn v).mac_address ≠ "" ∨ (setField info fn v).mac_address = info.mac_address)
    ∧ ((setField info fn v).hardware_version ≠ "" ∨ (setField info fn v).hardware_version = info.hardware_version)
    ∧ ((setField info fn v).active_software_version ≠ "" ∨ (setField info fn v).active_software_version = info.active_software_version)
    ∧ ((setField info fn v).standby_software_version ≠ "" ∨ (setField info fn v).standby_software_version = info.standby_software_version)
    ∧ ((setField info fn v).country_code ≠ "" ∨ (setField info fn v).country_code = info.country_code)
    ∧ ((setField info fn v).optical_power_dbm ≠ "" ∨ (setField info fn v).optical_power_dbm = info.optical_power_dbm)
    ∧ ((setField info fn v).connection_status ≠ "" ∨ (setField info fn v).connection_status = info.connection_status)
    ∧ (setField info fn v).fetched_at = info.fetched_at := by
  unfold setField
  repeat' split
  all_goals refine ⟨?_, ?_, ?_, ?_, ?_, ?_, ?_, ?_, ?_, ?_, ?_, ?_⟩ <;>
    first | exact Or.inl hv | exact Or.inr rfl | rfl

/-- One pass of the parse_install_info field loop leaves every string field
either non-empty or unchanged, and never touches the timestamp. -/
theorem processGroup_preserves (info : ONTInfo) (g : FormGroup) :
    ((processGroup info g).ont_id ≠ "" ∨ (processGroup info g).ont_id = info.ont_id)
    ∧ ((processGroup info g).vendor_id ≠ "" ∨ (processGroup info g).vendor_id = info.vendor_id)
    ∧ ((processGroup info g).serial_number ≠ "" ∨
        (processGroup info g).serial_number = info.serial_number)
    ∧ ((processGroup info g).gpon_serial_number ≠ "" ∨
        (processGroup info g).gpon_serial_number = info.gpon_serial_number)
    ∧ ((processGroup info g).mac_address ≠ "" ∨
        (processGroup info g).mac_address = info.mac_address)
    ∧ ((processGroup info g).hardware_version ≠ "" ∨
        (processGroup info g).hardware_version = info.hardware_version)
    ∧ ((processGroup info g).active_software_version ≠ "" ∨
        (processGroup info g).active_software_version = info.active_software_version)
    ∧ ((processGroup info g).standby_software_version ≠ "" ∨
        (processGroup info g).standby_software_version = info.standby_software_version)
    ∧ ((processGroup info g).country_code ≠ "" ∨
        (processGroup info g).country_code = info.country_code)
    ∧ ((processGroup info g).optical_power_dbm ≠ "" ∨
        (processGroup info g).optical_power_dbm = info.optical_power_dbm)
    ∧ ((processGroup info g).connection_status ≠ "" ∨
        (processGroup info g).connection_status = info.connection_status)
    ∧ (processGroup info g).fetched_at = info.fetched_at := by
  rcases g with ⟨lt?, v?⟩
  rcases lt? with _ | lt
  · simp [processGroup]
  rcases v? with _ | v
  · simp [processGroup]
  unfold processGroup
  rcases hdg : dget LABEL_FIELD_MAP lt with _ | fn <;> simp only [hdg]
  · by_cases hlt : lt = "" <;> by_cases hv : v = "" <;> simp [hlt, hv]
  · by_cases hv : v = ""
    · simp [hv]
    · have hb : (if !(v == "") then setField info fn v else info) = setField info fn v := by
        simp [hv]
      rw [hb]
      exact setField_preserves info fn v hv

/-- Projection characterization of `merge_info`: connection-status is the
secondary value when present, country code and device identifier fall back
to the secondary only from empty, and every other field is unchanged. -/
theorem merge_info_char (info : ONTInfo) (d : List (String × String)) :
    (merge_info info d).connection_status = (dget d "connection_status").getD info.connection_status
    ∧ (merge_info info d).country_code =
        (if info.country_code = "" then (dget d "country_code").getD "" else info.country_code)
    ∧ (merge_info info d).ont_id =
        (if info.ont_id = "" then (dget d "ont_id").getD "" else info.ont_id)
    ∧ (merge_info info d).vendor_id = info.vendor_id
    ∧ (merge_info info d).serial_number = info.serial_number
    ∧ (merge_info info d).gpon_serial_number = info.gpon_serial_number
    ∧ (merge_info info d).mac_address = info.mac_address
    ∧ (merge_info info d).hardware_version = info.hardware_version
    ∧ (merge_info info d).active_software_version = info.active_software_version
    ∧ (merge_info info d).standby_software_version = info.standby_software_version
    ∧ (merge_info info d).optical_power_dbm = info.optical_power_dbm
    ∧ (merge_info info d).fetched_at = info.fetched_at
    ∧ (merge_info info d).extra_fields = info.extra_fields := by
  unfold merge_info
  rcases h1 : dget d "connection_status" with _ | v1 <;>
    rcases h2 : dget d "country_code" with _ | v2 <;>
    rcases h3 : dget d "ont_id" with _ | v3 <;>
    by_cases hc : info.country_code = "" <;>
    by_cases ho : info.ont_id = "" <;>
    simp [hc, ho]

/-- A digit character produced by `digitCh` reads back as its digit. -/
theorem digitVal_digitCh : ∀ k, k < 10 → digitVal (digitCh k) = k := by decide

/-- Reading back a two-digit zero-padded rendering. -/
theorem digitsVal_pad2 (n : Nat) (h : n < 100) : digitsVal [digitCh (n / 10), digitCh (n % 10)] = n := by
  unfold digitsVal
  simp only [List.foldl]
  rw [digitVal_digitCh _ (by omega), digitVal_digitCh _ (by omega)]
  omega

/-- Reading back a four-digit zero-padded rendering. -/
theorem digitsVal_pad4 (n : Nat) (h : n < 10000) :
    digitsVal [digitCh (n / 1000), digitCh (n / 100 % 10), digitCh (n / 10 % 10),
      digitCh (n % 10)] = n := by
  unfold digitsVal
  simp only [List.foldl]
  rw [digitVal_digitCh _ (by omega), digitVal_digitCh _ (by omega),
    digitVal_digitCh _ (by omega), digitVal_digitCh _ (by omega)]
  omega

/-- Reading back a six-digit zero-padded rendering. -/
theorem digitsVal_pad6 (n : Nat) (h : n < 1000000) :
    digitsVal [digitCh (n / 100000), digitCh (n / 10000 % 10), digitCh (n / 1000 % 10),
      digitCh (n / 100 % 10), digitCh (n / 10 % 10), digitCh (n % 10)] = n := by
  unfold digitsVal
  simp only [List.foldl]
  rw [digitVal_digitCh _ (by omega), digitVal_digitCh _ (by omega),
    digitVal_digitCh _ (by omega), digitVal_digitCh _ (by omega),
    digitVal_digitCh _ (by omega), digitVal_digitCh _ (by omega)]
  omega

/-- Round trip of the fixed timestamp format, for component values in the
ranges Python `datetime` guarantees (bounded as needed by the zero-padded
widths). -/
theorem fromIso_isoformat (dt : DateTime)
    (hy : dt.year < 10000) (hmo : dt.month < 100) (hd : dt.day < 100)
    (hh : dt.hour < 100) (hmi : dt.minute < 100) (hs : dt.second < 100)
    (hus : dt.microsecond < 1000000) :
    DateTime.fromIso dt.isoformat = dt := by
  obtain ⟨y, mo, d, h, mi, s, us⟩ := dt
  simp only at hy hmo hd hh hmi hs hus
  unfold DateTime.isoformat DateTime.fromIso
  by_cases h0 : us = 0
  · subst h0
    simp only [pad4, pad2, pad6, List.cons_append, List.nil_append, beq_self_eq_true,
      if_true, List.append_nil]
    simp only [DateTime.mk.injEq]
    exact ⟨digitsVal_pad4 y hy, digitsVal_pad2 mo hmo, digitsVal_pad2 d hd,
      digitsVal_pad2 h hh, digitsVal_pad2 mi hmi, digitsVal_pad2 s hs, trivial⟩
  · simp only [pad4, pad2, pad6, List.cons_append, List.nil_append, h0,
      beq_iff_eq, if_false, if_neg h0]
    simp only [DateTime.mk.injEq]
    exact ⟨digitsVal_pad4 y hy, digitsVal_pad2 mo hmo, digitsVal_pad2 d hd,
      digitsVal_pad2 h hh, digitsVal_pad2 mi hmi, digitsVal_pad2 s hs,
      digitsVal_pad6 us hus⟩

/-- Every character that `hexDigitCh` produces is a lowercase hex digit. -/
theorem hexDigitCh_hex (n : Nat) :
    ('0' ≤ hexDigitCh n ∧ hexDigitCh n ≤ '9') ∨ ('a' ≤ hexDigitCh n ∧ hexDigitCh n ≤ 'f') := by
  have key : ∀ m, m < 16 →
      (('0' ≤ hexDigitCh m ∧ hexDigitCh m ≤ '9') ∨ ('a' ≤ hexDigitCh m ∧ hexDigitCh m ≤ 'f')) := by
    decide
  have h16 : n % 16 < 16 := by omega
  have hm : hexDigitCh (n % 16) = hexDigitCh n := by
    unfold hexDigitCh
    have e : n % 16 % 16 = n % 16 := by omega
    rw [e]
  rw [← hm]
  exact key _ h16

/-- The MD5 digest always has sixteen bytes. -/
theorem md5Bytes_length (msg : List Nat) : (md5Bytes msg).length = 16 := by
  unfold md5Bytes
  rcases hst : (splitBlocksGo 0 [] (md5Pad msg)).foldl md5Block
      (0x67452301, 0xefcdab89, 0x98badcfe, 0x10325476) with ⟨a, b, c, d⟩
  simp [hst, wordLE]

/-- Length of the two-characters-per-byte hex rendering. -/
theorem length_flatMap_pair (l : List Nat) :
    (l.flatMap (fun b => [hexDigitCh (b / 16), hexDigitCh (b % 16)])).length = 2 * l.length := by
  induction l with
  | nil => simp
  | cons b bs ih =>
    simp [ih]
    omega

/-- Every character of the hex rendering comes from `hexDigitCh`. -/
theorem mem_flatMap_pair (l : List Nat) (c : Char)
    (hc : c ∈ l.flatMap (fun b => [hexDigitCh (b / 16), hexDigitCh (b % 16)])) :
    ∃ m, c = hexDigitCh m := by
  induction l with
  | nil => simp at hc
  | cons b bs ih =>
    simp only [List.flatMap_cons, List.cons_append, List.mem_cons] at hc
    rcases hc with h | hc
    · exact ⟨b / 16, h⟩
    rcases hc with h | hc
    · exact ⟨b % 16, h⟩
    · exact ih (by simpa using hc)

/-- The quote class holds exactly the double and the single quote. -/
theorem quote_cases (q : Char) (h : isQuoteCh q = true) : q = '"' ∨ q = Char.ofNat 39 := by
  unfold isQuoteCh at h
  rcases Bool.or_eq_true_iff.mp h with h1 | h2
  · exact Or.inl (beq_iff_eq.mp h1)
  · right
    have hn : q.toNat = 39 := by simpa using h2
    rw [← hn, Char.ofNat_toNat]

/-- A quote is not whitespace. -/
theorem isSpaceCh_quote (q : Char) (h : isQuoteCh q = true) : isSpaceCh q = false := by
  rcases quote_cases q h with rfl | rfl <;> decide

/-- A quote is not a hex digit. -/
theorem isHexCh_quote (q : Char) (h : isQuoteCh q = true) : isHexCh q = false := by
  rcases quote_cases q h with rfl | rfl <;> decide

/-- The prefix `takeWhile` keeps satisfies its predicate throughout. -/
theorem all_takeWhile (p : Char → Bool) (l : List Char) : (l.takeWhile p).all p = true := by
  induction l with
  | nil => simp
  | cons c cs ih => by_cases hc : p c <;> simp [List.takeWhile_cons, hc, ih]

/-- A successful literal strip decomposes its input. -/
theorem stripLit_sound : ∀ (name l r : List Char), stripLit name l = some r → l = name ++ r := by
  intro name
  induction name with
  | nil =>
    intro l r h
    simp [stripLit] at h
    simp [h]
  | cons n ns ih =>
    intro l r h
    cases l with
    | nil => simp [stripLit] at h
    | cons c cs =>
      unfold stripLit at h
      by_cases hc : c == n
      · simp only [hc, if_true] at h
        have hcs := ih cs r h
        simp [beq_iff_eq.mp hc, hcs]
      · simp [hc] at h

/-- A successful position scan decomposes its input at the match position. -/
theorem searchWith_sound (m : List Char → Option (List Char)) :
    ∀ cs g, searchWith m cs = some g → ∃ pre rest, cs = pre ++ rest ∧ m rest = some g := by
  intro cs
  induction cs with
  | nil =>
    intro g h
    simp [searchWith] at h
  | cons c cs ih =>
    intro g h
    unfold searchWith at h
    rcases hm : m (c :: cs) with _ | r
    · rw [hm] at h
      obtain ⟨pre, rest, heq, hmr⟩ := ih g h
      exact ⟨c :: pre, rest, by simp [heq], hmr⟩
    · rw [hm] at h
      cases h
      exact ⟨[], c :: cs, rfl, hm⟩

/-- The position scan succeeds whenever the matcher succeeds at some
position. -/
theorem searchWith_complete (m : List Char → Option (List Char)) :
    ∀ (pre : List Char) (c : Char) (cs : List Char), m (c :: cs) ≠ none →
      searchWith m (pre ++ c :: cs) ≠ none := by
  intro pre
  induction pre with
  | nil =>
    intro c cs h
    unfold searchWith
    rcases hm : m (c :: cs) with _ | r
    · exact absurd hm h
    · simp [hm]
  | cons p ps ih =>
    intro c cs h
    show searchWith m (p :: (ps ++ c :: cs)) ≠ none
    unfold searchWith
    rcases hm : m (p :: (ps ++ c :: cs)) with _ | r
    · simp [hm]
      exact ih c cs h
    · simp [hm]

/-- Inversion of the common `var\s+NAME\s*=\s*` matcher head. -/
theorem matchAssignHead_sound (name cs rest : List Char)
    (h : matchAssignHead name cs = some rest) :
    ∃ c w1 w2 w3,
      cs = 'v' :: 'a' :: 'r' :: c :: (w1 ++ (name ++ (w2 ++ '=' :: (w3 ++ rest))))
      ∧ isSpaceCh c = true ∧ w1.all isSpaceCh = true ∧ w2.all isSpaceCh = true
      ∧ w3.all isSpaceCh = true := by
  rcases cs with _ | ⟨a, cs⟩
  · simp [matchAssignHead] at h
  rcases cs with _ | ⟨b, cs⟩
  · simp [matchAssignHead] at h
  rcases cs with _ | ⟨r, cs⟩
  · simp [matchAssignHead] at h
  rcases cs with _ | ⟨c, rest0⟩
  · simp [matchAssignHead] at h
  unfold matchAssignHead at h
  by_cases hcond : (a == 'v' && b == 'a' && r == 'r' && isSpaceCh c) = true
  case neg => simp [hcond] at h
  simp only [hcond, if_true] at h
  have hparts : a = 'v' ∧ b = 'a' ∧ r = 'r' ∧ isSpaceCh c = true := by
    simp only [Bool.and_eq_true, beq_iff_eq] at hcond
    exact ⟨hcond.1.1.1, hcond.1.1.2, hcond.1.2, hcond.2⟩
  obtain ⟨ha, hb, hr, hc⟩ := hparts
  subst ha hb hr
  rcases hsl : stripLit name (rest0.dropWhile isSpaceCh) with _ | rest2
  · simp [hsl] at h
  simp only [hsl] at h
  rcases hdw : rest2.dropWhile isSpaceCh with _ | ⟨c2, rest3⟩
  · simp [hdw] at h
  simp only [hdw] at h
  by_cases hc2 : (c2 == '=') = true
  case neg => simp [hc2] at h
  simp only [hc2, if_true, Option.some.injEq] at h
  have hc2' : c2 = '=' := beq_iff_eq.mp hc2
  subst hc2'
  subst h
  refine ⟨c, rest0.takeWhile isSpaceCh, rest2.takeWhile isSpaceCh, rest3.takeWhile isSpaceCh,
    ?_, hc, all_takeWhile _ _, all_takeWhile _ _, all_takeWhile _ _⟩
  have hdecomp : rest0.dropWhile isSpaceCh = name ++ rest2 := stripLit_sound name _ _ hsl
  have e0 : rest0.takeWhile isSpaceCh ++ rest0.dropWhile isSpaceCh = rest0 :=
    List.takeWhile_append_dropWhile _ _
  have e2 : rest2.takeWhile isSpaceCh ++ rest2.dropWhile isSpaceCh = rest2 :=
    List.takeWhile_append_dropWhile _ _
  have e3 : rest3.takeWhile isSpaceCh ++ rest3.dropWhile isSpaceCh = rest3 :=
    List.takeWhile_append_dropWhile _ _
  simp only [List.cons.injEq, true_and]
  conv_lhs => rw [← e0, hdecomp, ← e2, hdw, ← e3]

/-- Inversion of the full `SID_PATTERN` matcher: a match yields a non-empty
hex capture group between quotes in the expected assignment shape. -/
theorem matchSidAt_sound (cs g : List Char) (h : matchSidAt cs = some g) :
    ∃ c w1 w2 w3 q1 q2 post,
      cs = 'v' :: 'a' :: 'r' :: c ::
        (w1 ++ 's' :: 'i' :: 'd' :: (w2 ++ '=' :: (w3 ++ q1 :: (g ++ q2 :: post))))
      ∧ isSpaceCh c = true ∧ w1.all isSpaceCh = true ∧ w2.all isSpaceCh = true
      ∧ w3.all isSpaceCh = true ∧ isQuoteCh q1 = true ∧ g ≠ []
      ∧ g.all isHexCh = true ∧ isQuoteCh q2 = true := by
  unfold matchSidAt at h
  rcases hmh : matchAssignHead ['s', 'i', 'd'] cs with _ | rest
  · simp [hmh] at h
  simp only [hmh] at h
  rcases rest with _ | ⟨q1, rest2⟩
  · simp at h
  by_cases hq1 : isQuoteCh q1 = true
  case neg => simp [hq1] at h
  simp only [hq1, if_true] at h
  by_cases hxe : (rest2.takeWhile isHexCh).isEmpty = true
  · simp [hxe] at h
  simp only [hxe, Bool.false_eq_true, if_false] at h
  rcases hdw : rest2.dropWhile isHexCh with _ | ⟨q2, post⟩
  · simp [hdw] at h
  simp only [hdw] at h
  by_cases hq2 : isQuoteCh q2 = true
  case neg => simp [hq2] at h
  simp only [hq2, if_true, Option.some.injEq] at h
  obtain ⟨c, w1, w2, w3, hcs, hc, h1, h2, h3⟩ := matchAssignHead_sound _ _ _ hmh
  have e2 : rest2.takeWhile isHexCh ++ rest2.dropWhile isHexCh = rest2 :=
    List.takeWhile_append_dropWhile _ _
  rw [h] at e2
  rw [hdw] at e2
  refine ⟨c, w1, w2, w3, q1, q2, post, ?_, hc, h1, h2, h3, hq1, ?_, ?_, hq2⟩
  · rw [hcs, ← e2]
    simp
  · intro hg
    apply hxe
    rw [h, hg]
    rfl
  · rw [← h]
    exact all_takeWhile _ _

/-- A successful session-token scan means the declarative sid-assignment
shape is present in the text. -/
theorem sid_sound (cs g : List Char) (h : sidSearch cs = some g) : SidAssign cs := by
  obtain ⟨pre, rest, hsplit, hm⟩ := searchWith_sound matchSidAt cs g h
  obtain ⟨c, w1, w2, w3, q1, q2, post, hcs, hc, h1, h2, h3, hq1, hne, hall, hq2⟩ :=
    matchSidAt_sound rest g hm
  refine ⟨pre, c :: w1, w2, w3, q1, g, q2, post, ?_, by simp, ?_, h2, h3, hq1, hne, hall, hq2⟩
  · rw [hsplit, hcs]
    simp
  · simp [hc, h1]

/-- Evaluation of the matcher head on the canonical `var sid = "` prefix
with an arbitrary tail. -/
theorem matchHead_var_sid (tail : List Char) :
    matchAssignHead ['s', 'i', 'd']
        ('v' :: 'a' :: 'r' :: ' ' :: 's' :: 'i' :: 'd' :: ' ' :: '=' :: ' ' :: '"' :: tail)
      = some ('"' :: tail) := rfl

/-- The matcher succeeds on every text slice of the declarative
sid-assignment shape, returning the hex group. -/
theorem matchSidAt_parts (c : Char) (w1 w2 w3 : List Char) (q1 : Char) (hx : List Char)
    (q2 : Char) (post : List Char) (hc : isSpaceCh c = true)
    (h1 : w1.all isSpaceCh = true) (h2 : w2.all isSpaceCh = true)
    (h3 : w3.all isSpaceCh = true) (hq1 : isQuoteCh q1 = true) (hhx : hx ≠ [])
    (hax : hx.all isHexCh = true) (hq2 : isQuoteCh q2 = true) :
    matchSidAt ('v' :: 'a' :: 'r' :: c ::
        (w1 ++ 's' :: 'i' :: 'd' :: (w2 ++ '=' :: (w3 ++ q1 :: (hx ++ q2 :: post)))))
      = some hx := by
  have hd1 := takeWhile_all_append w1 's'
    ('i' :: 'd' :: (w2 ++ '=' :: (w3 ++ q1 :: (hx ++ q2 :: post)))) h1 (by decide)
  have hd2 := takeWhile_all_append w2 '=' (w3 ++ q1 :: (hx ++ q2 :: post)) h2 (by decide)
  have hd3 := takeWhile_all_append w3 q1 (hx ++ q2 :: post) h3 (isSpaceCh_quote q1 hq1)
  have hmh : matchAssignHead ['s', 'i', 'd']
      ('v' :: 'a' :: 'r' :: c ::
        (w1 ++ 's' :: 'i' :: 'd' :: (w2 ++ '=' :: (w3 ++ q1 :: (hx ++ q2 :: post)))))
      = some (q1 :: (hx ++ q2 :: post)) := by
    unfold matchAssignHead
    simp [stripLit, hc, hd1.2, hd2.2, hd3.2]
  have hhex := takeWhile_all_append hx q2 post hax (isHexCh_quote q2 hq2)
  unfold matchSidAt
  simp only [hmh, hq1, if_true, hhex.1, hhex.2]
  simp [hq1, hq2, hhx]

/-- The session-token scan cannot fail on text containing the declarative
sid-assignment shape. -/
theorem sid_complete (cs : List Char) (h : SidAssign cs) : sidSearch cs ≠ none := by
  obtain ⟨pre, w1, w2, w3, q1, hx, q2, post, hcs, hw1, ha1, ha2, ha3, hq1, hhx, hax, hq2⟩ := h
  rcases w1 with _ | ⟨c, w1'⟩
  · exact absurd rfl hw1
  simp only [List.all_cons, Bool.and_eq_true] at ha1
  have hm := matchSidAt_parts c w1' w2 w3 q1 hx q2 post ha1.1 ha1.2 ha2 ha3 hq1 hhx hax hq2
  subst hcs
  unfold sidSearch
  exact searchWith_complete matchSidAt pre 'v'
    ('a' :: 'r' :: c :: (w1' ++ 's' :: 'i' :: 'd' :: (w2 ++ '=' :: (w3 ++ q1 :: (hx ++ q2 :: post)))))
    (by rw [hm]; simp)

end OntStats

/-! ## Claim theorems -/

open OntStats

namespace Claims

/-- C2 counterexample: the claim states that *both* page-fetch operations,
called after login on a body containing `"install_login.cgi"` and
`"window.parent.location"`, fail with SessionExpired.  `fetch_identifier`
performs no such check: on exactly such a body it returns the body. -/
theorem C2_counterexample :
    strContains "<script>window.parent.location = \"/cgi-bin/install_login.cgi\";</script>"
        "install_login.cgi" = true
    ∧ strContains "<script>window.parent.location = \"/cgi-bin/install_login.cgi\";</script>"
        "window.parent.location" = true
    ∧ fetch_identifier true "<script>window.parent.location = \"/cgi-bin/install_login.cgi\";</script>"
      = .ok "<script>window.parent.location = \"/cgi-bin/install_login.cgi\";</script>" :=
  ⟨by decide, by decide, rfl⟩

/-- C2 (amended): before login both fetch operations fail with
NotAuthenticated; after login `fetch_install_info` fails with SessionExpired
exactly when the body contains both the login resource path and the
parent-window redirect marker, while `fetch_identifier` returns the body
unchanged with no expiry check. -/
theorem C2_fetch_behavior (b : String) :
    fetch_install_info false b = .error .notAuthenticated
    ∧ fetch_identifier false b = .error .notAuthenticated
    ∧ fetch_install_info true b =
        (if strContains b "install_login.cgi" && strContains b "window.parent.location" then
          .error .sessionExpired
        else .ok b)
    ∧ fetch_identifier true b = .ok b := by
  refine ⟨rfl, rfl, ?_, rfl⟩
  simp [fetch_install_info]

/-- C3: the login response body is classified as InvalidCredentials when it
contains the wrong-user-or-password marker, else as AuthFailed when it
contains the authentication-error marker, and any other body is a success
that sets the logged-in flag. -/
theorem C3_login_classification :
    (∀ body : String, strContains body "Falscher Benutzer oder Passwort" = true →
      login_classify body = .error .invalidCredentials)
    ∧ (∀ body : String, strContains body "Falscher Benutzer oder Passwort" = false →
        strContains body "Fehler bei Authentifizierung" = true →
        login_classify body = .error .authFailed)
    ∧ (∀ body : String, strContains body "Falscher Benutzer oder Passwort" = false →
        strContains body "Fehler bei Authentifizierung" = false →
        login_classify body = .ok true) := by
  refine ⟨fun body h1 => ?_, fun body h1 h2 => ?_, fun body h1 h2 => ?_⟩ <;>
    simp [login_classify, h1]
  · simp [h2]
  · simp [h2]

/-- C3 witness: the three classifications at concrete response bodies. -/
theorem C3_witness :
    login_classify "Falscher Benutzer oder Passwort" = .error .invalidCredentials
    ∧ login_classify "<p>Fehler bei Authentifizierung</p>" = .error .authFailed
    ∧ login_classify "<html>Welcome</html>" = .ok true :=
  ⟨C3_login_classification.1 "Falscher Benutzer oder Passwort" (by decide),
   C3_login_classification.2.1 "<p>Fehler bei Authentifizierung</p>" (by decide) (by decide),
   C3_login_classification.2.2 "<html>Welcome</html>" (by decide) (by decide)⟩

/-- C5: merge takes connection-status from the secondary whenever the key is
present (even over a non-empty primary value), takes country code and the
device identifier from the secondary only when the primary field is empty,
and changes no other field. -/
theorem C5_merge_rules (info : ONTInfo) (d : List (String × String)) :
    (merge_info info d).connection_status = (dget d "connection_status").getD info.connection_status
    ∧ (merge_info info d).country_code =
        (if info.country_code = "" then (dget d "country_code").getD "" else info.country_code)
    ∧ (merge_info info d).ont_id =
        (if info.ont_id = "" then (dget d "ont_id").getD "" else info.ont_id)
    ∧ (merge_info info d).vendor_id = info.vendor_id
    ∧ (merge_info info d).serial_number = info.serial_number
    ∧ (merge_info info d).gpon_serial_number = info.gpon_serial_number
    ∧ (merge_info info d).mac_address = info.mac_address
    ∧ (merge_info info d).hardware_version = info.hardware_version
    ∧ (merge_info info d).active_software_version = info.active_software_version
    ∧ (merge_info info d).standby_software_version = info.standby_software_version
    ∧ (merge_info info d).optical_power_dbm = info.optical_power_dbm
    ∧ (merge_info info d).fetched_at = info.fetched_at
    ∧ (merge_info info d).extra_fields = info.extra_fields := by
  obtain ⟨a, b, c, rest⟩ := merge_info_char info d
  exact ⟨a, b, c, rest.1, rest.2.1, rest.2.2.1, rest.2.2.2.1, rest.2.2.2.2.1,
    rest.2.2.2.2.2.1, rest.2.2.2.2.2.2.1, rest.2.2.2.2.2.2.2.1, rest.2.2.2.2.2.2.2.2.1,
    rest.2.2.2.2.2.2.2.2.2⟩

/-- C9: `merge_info` is exactly an update of the three status fields; every
other field of the returned record is the input record's. -/
theorem C9_merge_frame (info : ONTInfo) (d : List (String × String)) :
    merge_info info d =
      { info with
        connection_status := (dget d "connection_status").getD info.connection_status
        country_code :=
          if info.country_code = "" then (dget d "country_code").getD "" else info.country_code
        ont_id := if info.ont_id = "" then (dget d "ont_id").getD "" else info.ont_id } := by
  rcases info with ⟨oid, vid, sn, gsn, mac, hwv, asv, ssv, cc, cs, opd, fa, ef⟩
  unfold merge_info
  rcases h1 : dget d "connection_status" with _ | v1 <;>
    rcases h2 : dget d "country_code" with _ | v2 <;>
    rcases h3 : dget d "ont_id" with _ | v3 <;>
    by_cases hc : cc = "" <;>
    by_cases ho : oid = "" <;>
    simp [hc, ho]

/-- C7 counterexample: a secondary page whose script assigns the empty
string to the status variable yields a mapping carrying an empty
connection-status value, and merging it into a record whose
connection_status is the non-empty "Connected" sets that field back to
empty — a populated field downgraded to empty, against the claimed
invariant. -/
theorem C7_counterexample :
    parse_identifier "var gponStatus = \"\";" = [("connection_status", "")]
    ∧ (merge_info { connection_status := "Connected", fetched_at := ⟨2026, 1, 1, 0, 0, 0, 0⟩ }
        [("connection_status", "")]).connection_status = ""
    ∧ "Connected" ≠ "" :=
  ⟨rfl, rfl, by decide⟩

/-- C7 (amended): no extraction or merge step ever sets a non-empty field
back to empty, with the single exception of connection_status under
`merge_info`, which receives whatever value the secondary mapping carries,
including the empty string.  Each field-loop pass leaves every field
non-empty or unchanged; `merge_info` preserves non-emptiness of every field
other than connection_status, and of connection_status whenever the
secondary value attached to the connection-status key is non-empty. -/
theorem C7_no_empty_downgrade :
    (∀ (info : ONTInfo) (g : FormGroup),
      ((processGroup info g).ont_id ≠ "" ∨ (processGroup info g).ont_id = info.ont_id)
      ∧ ((processGroup info g).vendor_id ≠ "" ∨ (processGroup info g).vendor_id = info.vendor_id)
      ∧ ((processGroup info g).serial_number ≠ "" ∨
          (processGroup info g).serial_number = info.serial_number)
      ∧ ((processGroup info g).gpon_serial_number ≠ "" ∨
          (processGroup info g).gpon_serial_number = info.gpon_serial_number)
      ∧ ((processGroup info g).mac_address ≠ "" ∨
          (processGroup info g).mac_address = info.mac_address)
      ∧ ((processGroup info g).hardware_version ≠ "" ∨
          (processGroup info g).hardware_version = info.hardware_version)
      ∧ ((processGroup info g).active_software_version ≠ "" ∨
          (processGroup info g).active_software_version = info.active_software_version)
      ∧ ((processGroup info g).standby_software_version ≠ "" ∨
          (processGroup info g).standby_software_version = info.standby_software_version)
      ∧ ((processGroup info g).country_code ≠ "" ∨
          (processGroup info g).country_code = info.country_code)
      ∧ ((processGroup info g).optical_power_dbm ≠ "" ∨
          (processGroup info g).optical_power_dbm = info.optical_power_dbm)
      ∧ ((processGroup info g).connection_status ≠ "" ∨
          (processGroup info g).connection_status = info.connection_status))
    ∧ (∀ (info : ONTInfo) (d : List (String × String)),
        info.connection_status ≠ "" →
        (∀ v, dget d "connection_status" = some v → v ≠ "") →
        (merge_info info d).connection_status ≠ "")
    ∧ (∀ (info : ONTInfo) (d : List (String × String)),
        info.country_code ≠ "" → (merge_info info d).country_code ≠ "")
    ∧ (∀ (info : ONTInfo) (d : List (String × String)),
        info.ont_id ≠ "" → (merge_info info d).ont_id ≠ "")
    ∧ (∀ (info : ONTInfo) (d : List (String × String)),
        (merge_info info d).vendor_id = info.vendor_id
        ∧ (merge_info info d).serial_number = info.serial_number
        ∧ (merge_info info d).gpon_serial_number = info.gpon_serial_number
        ∧ (merge_info info d).mac_address = info.mac_address
        ∧ (merge_info info d).hardware_version = info.hardware_version
        ∧ (merge_info info d).active_software_version = info.active_software_version
        ∧ (merge_info info d).standby_software_version = info.standby_software_version
        ∧ (merge_info info d).optical_power_dbm = info.optical_power_dbm) := by
  refine ⟨fun info g => ?_, fun info d hcs hv => ?_, fun info d hcc => ?_,
    fun info d hoi => ?_, fun info d => ?_⟩
  · obtain ⟨a1, a2, a3, a4, a5, a6, a7, a8, a9, a10, a11, _⟩ := processGroup_preserves info g
    exact ⟨a1, a2, a3, a4, a5, a6, a7, a8, a9, a10, a11⟩
  · rw [(merge_info_char info d).1]
    rcases h1 : dget d "connection_status" with _ | v1
    · simpa using hcs
    · simpa using hv v1 h1
  · rw [(merge_info_char info d).2.1, if_neg hcc]
    exact hcc
  · rw [(merge_info_char info d).2.2.1, if_neg hoi]
    exact hoi
  · obtain ⟨_, _, _, rest⟩ := merge_info_char info d
    exact ⟨rest.1, rest.2.1, rest.2.2.1, rest.2.2.2.1, rest.2.2.2.2.1,
      rest.2.2.2.2.2.1, rest.2.2.2.2.2.2.1, rest.2.2.2.2.2.2.2.1⟩

/-- C7 witness for the amended statement: the merge conjuncts applied at a
fully populated record and a secondary mapping with non-empty values. -/
theorem C7_witness :
    (merge_info
        { connection_status := "Connected", country_code := "DE", ont_id := "X",
          fetched_at := ⟨2026, 1, 1, 0, 0, 0, 0⟩ }
        [("connection_status", "Offline"), ("country_code", ""), ("ont_id", "")]).connection_status
      ≠ ""
    ∧ (merge_info
        { connection_status := "Connected", country_code := "DE", ont_id := "X",
          fetched_at := ⟨2026, 1, 1, 0, 0, 0, 0⟩ }
        [("connection_status", "Offline"), ("country_code", ""), ("ont_id", "")]).country_code
      ≠ ""
    ∧ (merge_info
        { connection_status := "Connected", country_code := "DE", ont_id := "X",
          fetched_at := ⟨2026, 1, 1, 0, 0, 0, 0⟩ }
        [("connection_status", "Offline"), ("country_code", ""), ("ont_id", "")]).ont_id ≠ "" :=
  ⟨C7_no_empty_downgrade.2.1 _ _ (by decide)
      (fun v hv => by
        rw [show dget [("connection_status", "Offline"), ("country_code", ""), ("ont_id", "")]
            "connection_status" = some "Offline" from rfl] at hv
        cases hv
        decide),
   C7_no_empty_downgrade.2.2.1 _ _ (by decide),
   C7_no_empty_downgrade.2.2.2.1 _ _ (by decide)⟩

/-- C6: a grouping whose label is in the known-label dictionary with a
non-empty value sets the corresponding typed field; empty values are
ignored; an unknown non-empty label with a non-empty value is stored in the
open mapping under the lowercased key with spaces and hyphens replaced by
underscores; in particular "Seriennummer" → "001122334455" sets
serial_number and "Unknown Field" → "foo" is stored as "unknown_field". -/
theorem C6_label_mapping (now : DateTime) :
    (∀ (info : ONTInfo) (lt v fn : String), dget LABEL_FIELD_MAP lt = some fn → v ≠ "" →
      processGroup info ⟨some lt, some v⟩ = setField info fn v)
    ∧ (∀ (info : ONTInfo) (lt : String), processGroup info ⟨some lt, some ""⟩ = info)
    ∧ (∀ (info : ONTInfo) (lt v : String), dget LABEL_FIELD_MAP lt = none → lt ≠ "" → v ≠ "" →
        processGroup info ⟨some lt, some v⟩ =
          { info with extra_fields := dset info.extra_fields (normalizeKey lt) v })
    ∧ normalizeKey "Unknown Field" = "unknown_field"
    ∧ (parse_install_info ""
        [⟨some "Seriennummer", some "001122334455"⟩, ⟨some "Unknown Field", some "foo"⟩]
        now).serial_number = "001122334455"
    ∧ (parse_install_info ""
        [⟨some "Seriennummer", some "001122334455"⟩, ⟨some "Unknown Field", some "foo"⟩]
        now).extra_fields = [("unknown_field", "foo")] := by
  refine ⟨fun info lt v fn hfn hv => ?_, fun info lt => ?_, fun info lt v hfn hlt hv => ?_,
    rfl, rfl, rfl⟩
  · unfold processGroup
    simp only [hfn]
    simp [hv]
  · unfold processGroup
    rcases hdg : dget LABEL_FIELD_MAP lt with _ | fn <;> simp [hdg]
  · unfold processGroup
    simp only [hfn]
    simp [hlt, hv]

/-- C6 witness: the three mapping rules applied at concrete groupings. -/
theorem C6_witness :
    processGroup { fetched_at := ⟨2026, 1, 1, 0, 0, 0, 0⟩ }
        ⟨some "Seriennummer", some "001122334455"⟩ =
      setField { fetched_at := ⟨2026, 1, 1, 0, 0, 0, 0⟩ } "serial_number" "001122334455"
    ∧ processGroup { fetched_at := ⟨2026, 1, 1, 0, 0, 0, 0⟩ } ⟨some "Seriennummer", some ""⟩ =
      { fetched_at := ⟨2026, 1, 1, 0, 0, 0, 0⟩ }
    ∧ processGroup { fetched_at := ⟨2026, 1, 1, 0, 0, 0, 0⟩ } ⟨some "Unknown Field", some "foo"⟩ =
      { fetched_at := ⟨2026, 1, 1, 0, 0, 0, 0⟩, extra_fields := [("unknown_field", "foo")] } :=
  ⟨(C6_label_mapping ⟨2026, 1, 1, 0, 0, 0, 0⟩).1 _ "Seriennummer" "001122334455" "serial_number"
      (by decide) (by decide),
   (C6_label_mapping ⟨2026, 1, 1, 0, 0, 0, 0⟩).2.1 _ "Seriennummer",
   (C6_label_mapping ⟨2026, 1, 1, 0, 0, 0, 0⟩).2.2.1 _ "Unknown Field" "foo"
      (by decide) (by decide) (by decide)⟩

/-- C8: the script-variable scan extracts, for each known variable name, the
first double-quoted assignment value exactly; on the three-assignment
example it yields all three values, on text with no matching assignment it
yields the empty mapping, and for every input the value recorded under each
name is exactly the first match of that name's pattern. -/
theorem C8_js_vars (html : String)
    (h1 : jsVarSearch "gponPasswd" html = none)
    (h2 : jsVarSearch "gponStatus" html = none)
    (h3 : jsVarSearch "countryCode" html = none) :
    parse_js_vars html = []
    ∧ parse_js_vars
        "var gponPasswd = \"ABC123\"; var gponStatus = \"Connected\"; var countryCode = \"XX\";"
      = [("gponPasswd", "ABC123"), ("gponStatus", "Connected"), ("countryCode", "XX")]
    ∧ (∀ t : String,
        dget (parse_js_vars t) "gponPasswd" = jsVarSearch "gponPasswd" t
        ∧ dget (parse_js_vars t) "gponStatus" = jsVarSearch "gponStatus" t
        ∧ dget (parse_js_vars t) "countryCode" = jsVarSearch "countryCode" t) := by
  refine ⟨?_, rfl, fun t => ?_⟩
  · simp [parse_js_vars, jsVarNames, h1, h2, h3]
  · unfold parse_js_vars jsVarNames
    rcases k1 : jsVarSearch "gponPasswd" t with _ | v1 <;>
      rcases k2 : jsVarSearch "gponStatus" t with _ | v2 <;>
      rcases k3 : jsVarSearch "countryCode" t with _ | v3 <;>
      simp [k1, k2, k3, dget]

/-- C8 witness: the no-match case at the concrete variable-free body. -/
theorem C8_witness :
    parse_js_vars "<html><body>No vars here</body></html>" = [] :=
  (C8_js_vars "<html><body>No vars here</body></html>" rfl rfl rfl).1

/-- C10: serializing a record to the field-keyed structure and
deserializing back preserves every known field, with the timestamp carried
through the fixed ISO format (bounds are the widths Python `datetime`
guarantees for its components). -/
theorem C10_roundtrip (info : ONTInfo)
    (hy : info.fetched_at.year < 10000) (hmo : info.fetched_at.month < 100)
    (hd : info.fetched_at.day < 100) (hh : info.fetched_at.hour < 100)
    (hmi : info.fetched_at.minute < 100) (hs : info.fetched_at.second < 100)
    (hus : info.fetched_at.microsecond < 1000000) :
    from_dict info.to_dict = info := by
  obtain ⟨oid, vid, sn, gsn, mac, hwv, asv, ssv, cc, cs, opd, fa, ef⟩ := info
  simp only at hy hmo hd hh hmi hs hus
  unfold ONTInfo.to_dict from_dict
  simp only [ONTInfo.mk.injEq]
  refine ⟨trivial, trivial, trivial, trivial, trivial, trivial, trivial, trivial, trivial,
    trivial, trivial, ?_, ?_⟩
  · exact fromIso_isoformat fa hy hmo hd hh hmi hs hus
  · cases ef <;> simp

/-- C10 witness: the round trip at a record with every known field
populated, including a microsecond-bearing timestamp and an extra field. -/
theorem C10_witness :
    from_dict
      (ONTInfo.to_dict
        { ont_id := "AABBCCDD1122334455EE", vendor_id := "MitraStar",
          serial_number := "001122334455", gpon_serial_number := "MSTC00000000",
          mac_address := "00:11:22:33:44:55", hardware_version := "10",
          active_software_version := "FW_v1.0", standby_software_version := "FW_v0.9",
          country_code := "XX", connection_status := "Connected",
          optical_power_dbm := "-12.34", fetched_at := ⟨2026, 10, 12, 13, 45, 59, 123456⟩,
          extra_fields := [("unknown_field", "foo")] }) =
      { ont_id := "AABBCCDD1122334455EE", vendor_id := "MitraStar",
        serial_number := "001122334455", gpon_serial_number := "MSTC00000000",
        mac_address := "00:11:22:33:44:55", hardware_version := "10",
        active_software_version := "FW_v1.0", standby_software_version := "FW_v0.9",
        country_code := "XX", connection_status := "Connected",
        optical_power_dbm := "-12.34", fetched_at := ⟨2026, 10, 12, 13, 45, 59, 123456⟩,
        extra_fields := [("unknown_field", "foo")] } :=
  C10_roundtrip _ (by decide) (by decide) (by decide) (by decide) (by decide) (by decide)
    (by decide)

set_option maxRecDepth 4096 in
/-- C1: the password-hash derivation is the MD5 hex digest of
`password ++ ":" ++ sid` (deterministic, being a function of its inputs),
and its output is always 32 lowercase hexadecimal characters; the MD5
implementation matches the reference vectors, e.g. the empty message and
the repository test's `"testpass:abc12345"`. -/
theorem C1_password_hash (p t : String) :
    compute_password_hash p t = md5_hexdigest (utf8Encode (p ++ ":" ++ t))
    ∧ (compute_password_hash p t).data.length = 32
    ∧ (∀ c ∈ (compute_password_hash p t).data,
        ('0' ≤ c ∧ c ≤ '9') ∨ ('a' ≤ c ∧ c ≤ 'f'))
    ∧ md5_hexdigest (utf8Encode "") = "d41d8cd98f00b204e9800998ecf8427e"
    ∧ compute_password_hash "testpass" "abc12345" = "277423b88ed82d800b6f19967178273e" := by
  refine ⟨rfl, ?_, ?_, by decide, by decide⟩
  · show ((md5Bytes (utf8Encode (p ++ ":" ++ t))).flatMap
      (fun b => [hexDigitCh (b / 16), hexDigitCh (b % 16)])).length = 32
    rw [length_flatMap_pair, md5Bytes_length]
  · intro c hc
    obtain ⟨m, rfl⟩ := mem_flatMap_pair (md5Bytes (utf8Encode (p ++ ":" ++ t))) c hc
    exact hexDigitCh_hex m

/-- C4: the session-token extraction returns the hex string of a `var sid =
"<hex>"` script assignment — exactly `h` for the canonical assignment text,
with `"abc12345"` as concrete instance — returns some non-empty
case-insensitive-hex string whenever the text contains such an assignment
(in the declarative shape `SidAssign`), and fails with TokenNotFound
exactly on text containing no such assignment. -/
theorem C4_session_token (text h : String) (hne : h ≠ "")
    (hhex : h.data.all isHexCh = true) :
    get_session_id ("var sid = \"" ++ h ++ "\";") = .ok h
    ∧ get_session_id "var sid = \"abc12345\";" = .ok "abc12345"
    ∧ (¬ SidAssign text.data → get_session_id text = .error .tokenNotFound)
    ∧ (SidAssign text.data → ∃ g : String, get_session_id text = .ok g ∧ g ≠ ""
        ∧ g.data.all isHexCh = true) := by
  refine ⟨?_, rfl, ?_, ?_⟩
  · have hne' : h.data ≠ [] := by
      intro hl
      exact hne (String.ext hl)
    have hdata : ("var sid = \"" ++ h ++ "\";").data
        = 'v' :: 'a' :: 'r' :: ' ' :: 's' :: 'i' :: 'd' :: ' ' :: '=' :: ' ' :: '"' ::
          (h.data ++ ['"', ';']) := by
      rw [String.data_append, String.data_append]
      rfl
    have hhex2 := takeWhile_all_append h.data '"' [';'] hhex (by decide)
    have hm : matchSidAt ('v' :: 'a' :: 'r' :: ' ' :: 's' :: 'i' :: 'd' :: ' ' :: '=' :: ' ' ::
        '"' :: (h.data ++ ['"', ';'])) = some h.data := by
      unfold matchSidAt
      rw [matchHead_var_sid]
      simp [isQuoteCh, hhex2.1, hhex2.2, hne']
    have hs : sidSearch ('v' :: 'a' :: 'r' :: ' ' :: 's' :: 'i' :: 'd' :: ' ' :: '=' :: ' ' ::
        '"' :: (h.data ++ ['"', ';'])) = some h.data := by
      unfold sidSearch searchWith
      rw [hm]
    unfold get_session_id
    rw [hdata, hs]
  · intro hna
    unfold get_session_id
    rcases hs : sidSearch text.data with _ | g
    · rfl
    · exact absurd (sid_sound _ _ hs) hna
  · intro hp
    rcases hs : sidSearch text.data with _ | g
    · exact absurd hs (sid_complete text.data hp)
    · obtain ⟨pre, rest, hsplit, hm⟩ := searchWith_sound matchSidAt text.data g hs
      obtain ⟨_, _, _, _, _, _, _, _, _, _, _, _, _, hne2, hall2, _⟩ :=
        matchSidAt_sound rest g hm
      refine ⟨⟨g⟩, ?_, ?_, hall2⟩
      · unfold get_session_id
        rw [hs]
      · intro hgs
        exact hne2 (congrArg String.data hgs)

/-- C4 witness: the concrete extraction and the concrete TokenNotFound
failure from the repository's tests. -/
theorem C4_witness :
    get_session_id "var sid = \"abc12345\";" = .ok "abc12345"
    ∧ get_session_id "<html>No sid here</html>" = .error .tokenNotFound :=
  ⟨(C4_session_token "" "abc12345" (by decide) (by decide)).2.1,
   (C4_session_token "<html>No sid here</html>" "abc12345" (by decide) (by decide)).2.2.1
     (fun hp => sid_complete _ hp rfl)⟩

end Claims
